import Mathlib

/-!
Verification of the beszel-snmp gateway core (package `snmpagent`).

The definitions below are a shallow embedding of the Go source:

* `internal/snmpagent/state.go`   — device state, fingerprint derivation,
  metric routing, combined-data construction;
* `internal/snmpagent/receiver.go` — trap handling, OID lookup, value
  transform, category filter;
* `internal/snmpagent/agent.go`    — registry and explicit registration;
* the poller and hub-session files of the same package — `ensurePolling`,
  `Notify`, the per-session message handler and `send`.

Go `float64` values are modelled as exact rationals (`ℚ`), Go maps keyed by
strings as association lists, and the process-wide registry as a function
`String → Option DeviceState`.  Library calls that live outside this
repository (SSH signature verification, the SNMP engine's numeric decoding,
regular-expression matching) are abstracted as oracle parameters, as noted
at each definition.  SHA-256 (Go's `crypto/sha256`, also outside the
repository) is implemented concretely from FIPS 180-4 so that fingerprints
are computable.
-/

namespace BeszelSnmp

/-! ## SHA-256, modelled from FIPS 180-4 (the Go code calls `crypto/sha256.Sum256`) -/

/-- Right rotation of a 32-bit word represented as a `Nat` below `2 ^ 32`. -/
def rotr (n x : Nat) : Nat := ((x >>> n) ||| (x <<< (32 - n))) % 2 ^ 32

def bigSigma0 (x : Nat) : Nat := rotr 2 x ^^^ rotr 13 x ^^^ rotr 22 x
def bigSigma1 (x : Nat) : Nat := rotr 6 x ^^^ rotr 11 x ^^^ rotr 25 x
def smallSigma0 (x : Nat) : Nat := rotr 7 x ^^^ rotr 18 x ^^^ (x >>> 3)
def smallSigma1 (x : Nat) : Nat := rotr 17 x ^^^ rotr 19 x ^^^ (x >>> 10)

def chFn (e f g : Nat) : Nat := (e &&& f) ^^^ ((e ^^^ 0xffffffff) &&& g)
def majFn (a b c : Nat) : Nat := (a &&& b) ^^^ (a &&& c) ^^^ (b &&& c)

/-- Eight-word SHA-256 working state. -/
structure Hash8 where
  a : Nat
  b : Nat
  c : Nat
  d : Nat
  e : Nat
  f : Nat
  g : Nat
  h : Nat
deriving DecidableEq

def initHash : Hash8 :=
  ⟨1779033703, 3144134277, 1013904242, 2773480762,
   1359893119, 2600822924, 528734635, 1541459225⟩

/-- Round constants of FIPS 180-4. -/
def roundK : List Nat :=
  [1116352408, 1899447441, 3049323471, 3921009573, 961987163, 1508970993,
   2453635748, 2870763221, 3624381080, 310598401, 607225278, 1426881987,
   1925078388, 2162078206, 2614888103, 3248222580, 3835390401, 4022224774,
   264347078, 604807628, 770255983, 1249150122, 1555081692, 1996064986,
   2554220882, 2821834349, 2952996808, 3210313671, 3336571891, 3584528711,
   113926993, 338241895, 666307205, 773529912, 1294757372, 1396182291,
   1695183700, 1986661051, 2177026350, 2456956037, 2730485921, 2820302411,
   3259730800, 3345764771, 3516065817, 3600352804, 4094571909, 275423344,
   430227734, 506948616, 659060556, 883997877, 958139571, 1322822218,
   1537002063, 1747873779, 1955562222, 2024104815, 2227730452, 2361852424,
   2428436474, 2756734187, 3204031479, 3329325298]

/-- Big-endian byte expansion: `beBytes n x` is the `n` low-order bytes of `x`,
most significant first. -/
def beBytes : Nat → Nat → List Nat
  | 0, _ => []
  | n + 1, x => beBytes n (x / 256) ++ [x % 256]

/-- FIPS 180-4 padding: `0x80`, zeros to 56 mod 64, then the bit length in 8
big-endian bytes. -/
def padMessage (msg : List Nat) : List Nat :=
  let L := msg.length
  let k := (119 - (L % 64)) % 64
  msg ++ 0x80 :: (List.replicate k 0 ++ beBytes 8 (8 * L))

/-- Group bytes into big-endian 32-bit words. -/
def bytesToWords : List Nat → List Nat
  | a :: b :: c :: d :: rest => (((a * 256 + b) * 256 + c) * 256 + d) :: bytesToWords rest
  | _ => []

/-- Extend a 16-word block to the 64-word message schedule. -/
def extendSchedule (w0 : List Nat) : List Nat :=
  (List.range 48).foldl
    (fun w _ =>
      let n := w.length
      let x := ((w.getD (n - 16) 0) + smallSigma0 (w.getD (n - 15) 0) +
                (w.getD (n - 7) 0) + smallSigma1 (w.getD (n - 2) 0)) % 2 ^ 32
      w ++ [x])
    w0

def sha256Round (st : Hash8) (kw : Nat × Nat) : Hash8 :=
  let t1 := (st.h + bigSigma1 st.e + chFn st.e st.f st.g + kw.1 + kw.2) % 2 ^ 32
  let t2 := (bigSigma0 st.a + majFn st.a st.b st.c) % 2 ^ 32
  ⟨(t1 + t2) % 2 ^ 32, st.a, st.b, st.c, (st.d + t1) % 2 ^ 32, st.e, st.f, st.g⟩

def compress (h0 : Hash8) (block : List Nat) : Hash8 :=
  let w := extendSchedule (bytesToWords block)
  let st := (roundK.zip w).foldl sha256Round h0
  ⟨(h0.a + st.a) % 2 ^ 32, (h0.b + st.b) % 2 ^ 32, (h0.c + st.c) % 2 ^ 32, (h0.d + st.d) % 2 ^ 32,
   (h0.e + st.e) % 2 ^ 32, (h0.f + st.f) % 2 ^ 32, (h0.g + st.g) % 2 ^ 32, (h0.h + st.h) % 2 ^ 32⟩

/-- Fold the compression function over successive 64-byte blocks.  The fuel
argument bounds the recursion; `sha256` passes the padded length, which is at
least the number of blocks. -/
def processBlocks : Nat → Hash8 → List Nat → Hash8
  | 0, h0, _ => h0
  | _ + 1, h0, [] => h0
  | fuel + 1, h0, l => processBlocks fuel (compress h0 (l.take 64)) (l.drop 64)

def digestBytes (h0 : Hash8) : List Nat :=
  beBytes 4 h0.a ++ beBytes 4 h0.b ++ beBytes 4 h0.c ++ beBytes 4 h0.d ++
  beBytes 4 h0.e ++ beBytes 4 h0.f ++ beBytes 4 h0.g ++ beBytes 4 h0.h

/-- SHA-256 of a byte sequence, as its 32 digest bytes. -/
def sha256 (msg : List Nat) : List Nat :=
  let padded := padMessage msg
  digestBytes (processBlocks padded.length initHash padded)

/-- UTF-8 bytes of one character, as Go stores strings. -/
def charUtf8 (c : Char) : List Nat :=
  let n := c.toNat
  if n < 0x80 then [n]
  else if n < 0x800 then [0xC0 ||| (n >>> 6), 0x80 ||| (n &&& 0x3F)]
  else if n < 0x10000 then
    [0xE0 ||| (n >>> 12), 0x80 ||| ((n >>> 6) &&& 0x3F), 0x80 ||| (n &&& 0x3F)]
  else
    [0xF0 ||| (n >>> 18), 0x80 ||| ((n >>> 12) &&& 0x3F), 0x80 ||| ((n >>> 6) &&& 0x3F),
     0x80 ||| (n &&& 0x3F)]

/-- Byte content of a Go string (UTF-8). -/
def strBytes (s : String) : List Nat := (s.data.map charUtf8).flatten

/-! ## Hex encoding (Go `encoding/hex`, table "0123456789abcdef") -/

def hextable : List Char := "0123456789abcdef".data

/-- Lowercase hex encoding: high nibble then low nibble of each byte, exactly
as `hex.EncodeToString` emits them. -/
def hexChars : List Nat → List Char
  | [] => []
  | b :: rest => hextable.getD (b >>> 4) '0' :: hextable.getD (b &&& 0x0f) '0' :: hexChars rest

/-! ## Fingerprint derivation (`state.go`, `deriveFingerprint` / `replacePlaceholders`) -/

/-- Embedding of `replacePlaceholders`: substitute `%IP%` then `%sysName%`. -/
def replacePlaceholders (tmpl ip sysName : String) : String :=
  (tmpl.replace "%IP%" ip).replace "%sysName%" sysName

/-- Embedding of `deriveFingerprint` from `state.go`.  `ip` stands for the
textual form of the parsed address (`ip.String()` in the source). -/
def deriveFingerprint (ip sysName tmpl : String) : String :=
  let base := ip
  let base := if sysName ≠ "" then sysName ++ "-" ++ base else base
  let base := if tmpl ≠ "" then replacePlaceholders tmpl ip sysName else base
  String.mk (hexChars ((sha256 (strBytes base)).take 24))

/-- Base string as the specification words it: the template with placeholders
substituted when the template is non-empty; otherwise `sysName-ip` when the
system name is non-empty; otherwise the bare ip. -/
def specBase (ip sysName tmpl : String) : String :=
  if tmpl ≠ "" then replacePlaceholders tmpl ip sysName
  else if sysName ≠ "" then sysName ++ "-" ++ ip
  else ip

/-! ## Device state and metric routing (`state.go`) -/

/-- Association-list model of a Go `map[string]float64`. -/
abbrev MetricMap : Type := List (String × ℚ)

/-- Map assignment `m[name] = val`: replace the binding if the key is present,
otherwise add it. -/
def upsert : MetricMap → String → ℚ → MetricMap
  | [], k, v => [(k, v)]
  | (k', v') :: rest, k, v =>
      if k' = k then (k, v) :: rest else (k', v') :: upsert rest k v

/-- Embedding of `deviceState` (the `lastSend` timestamp and the mutex are
omitted — snapshots are modelled as reads of this record). -/
structure DeviceState where
  ip : String
  finger : String
  hostname : String
  lastTemps : MetricMap
  lastHumidity : MetricMap
  lastCO2 : MetricMap
  lastPressure : MetricMap
  lastPM25 : MetricMap
  lastPM10 : MetricMap
  lastVOC : MetricMap
deriving DecidableEq

/-- Embedding of `newDeviceState`: fresh empty category maps. -/
def newDeviceState (ip finger hostname : String) : DeviceState :=
  ⟨ip, finger, hostname, [], [], [], [], [], [], []⟩

/-- Embedding of `deviceState.setMetric`: the `switch strings.ToLower(category)`
of `state.go`, written as the equivalent first-match chain. -/
def setMetric (ds : DeviceState) (category name : String) (val : ℚ) : DeviceState :=
  let s := category.toLower
  if s = "temperature" ∨ s = "temp" ∨ s = "t" then
    { ds with lastTemps := upsert ds.lastTemps name val }
  else if s = "humidity" ∨ s = "hum" ∨ s = "h" then
    { ds with lastHumidity := upsert ds.lastHumidity name val }
  else if s = "co2" then
    { ds with lastCO2 := upsert ds.lastCO2 name val }
  else if s = "pressure" ∨ s = "press" ∨ s = "pr" then
    { ds with lastPressure := upsert ds.lastPressure name val }
  else if s = "pm25" then
    { ds with lastPM25 := upsert ds.lastPM25 name val }
  else if s = "pm10" then
    { ds with lastPM10 := upsert ds.lastPM10 name val }
  else if s = "voc" then
    { ds with lastVOC := upsert ds.lastVOC name val }
  else ds

/-- Closed set of metric categories named by the specification. -/
inductive Category where
  | temperature
  | humidity
  | co2
  | pressure
  | pm25
  | pm10
  | voc
deriving DecidableEq

/-- Category normalization as the specification words it: case-insensitive
membership in the closed set, accepting the aliases `temp`/`t`, `hum`/`h`
and `press`/`pr`. -/
def categoryOf (category : String) : Option Category :=
  let s := category.toLower
  if s = "temperature" ∨ s = "temp" ∨ s = "t" then some .temperature
  else if s = "humidity" ∨ s = "hum" ∨ s = "h" then some .humidity
  else if s = "co2" then some .co2
  else if s = "pressure" ∨ s = "press" ∨ s = "pr" then some .pressure
  else if s = "pm25" then some .pm25
  else if s = "pm10" then some .pm10
  else if s = "voc" then some .voc
  else none

/-- Upsert into exactly the one category map selected by a normalized
category, leaving every other field untouched. -/
def applyCategory (ds : DeviceState) (c : Category) (name : String) (val : ℚ) : DeviceState :=
  match c with
  | .temperature => { ds with lastTemps := upsert ds.lastTemps name val }
  | .humidity => { ds with lastHumidity := upsert ds.lastHumidity name val }
  | .co2 => { ds with lastCO2 := upsert ds.lastCO2 name val }
  | .pressure => { ds with lastPressure := upsert ds.lastPressure name val }
  | .pm25 => { ds with lastPM25 := upsert ds.lastPM25 name val }
  | .pm10 => { ds with lastPM10 := upsert ds.lastPM10 name val }
  | .voc => { ds with lastVOC := upsert ds.lastVOC name val }

/-! ## Value transform and category filter (`receiver.go`) -/

/-- Go `math.Round`, modelled on exact rationals: nearest integer with ties
rounded half away from zero. -/
def mathRound (x : ℚ) : ℚ :=
  if x < 0 then -((⌊-x + 1 / 2⌋ : ℤ) : ℚ) else ((⌊x + 1 / 2⌋ : ℤ) : ℚ)

/-- Embedding of `transformValue`: divide by the scale (a zero scale counts as
one), then optionally round to one decimal place. -/
def transformValue (scale v : ℚ) (round1 : Bool) : ℚ :=
  let scale' := if scale = 0 then 1 else scale
  let val := v / scale'
  if round1 then mathRound (val * 10) / 10 else val

/-- One-decimal rounding as the specification words it:
`round1(x) = round(x*10)/10` with half away from zero. -/
def specRound1 (x : ℚ) : ℚ := mathRound (x * 10) / 10

/-- Embedding of the `OIDMap` config record. -/
structure OIDMap where
  name : String
  kind : String
  unit : String
  category : String
  scale : ℚ
deriving DecidableEq

/-- Embedding of `shouldSend` from `receiver.go`: the category filter. -/
def shouldSend (om : OIDMap) : Bool :=
  let s := om.category.toLower
  s = "temperature" ∨ s = "temp" ∨ s = "t" ∨
  s = "humidity" ∨ s = "hum" ∨ s = "h" ∨
  s = "co2" ∨
  s = "pressure" ∨ s = "press" ∨ s = "pr" ∨
  s = "pm25" ∨
  s = "pm10" ∨
  s = "voc"

/-! ## Configuration (`state.go` config section).  The compiled `ip_regex` is
abstracted as an optional predicate `ipRegexMatch` — `none` models an absent
regex, which matches any address. -/

structure DeviceConfig where
  ipRegexMatch : Option (String → Bool)
  fingerTmpl : String
  hostTmpl : String
  poll : Bool
  pollIntervalSec : Nat
  communities : List String
  oids : List (String × OIDMap)

structure Defaults where
  round1 : Bool
  logUnknown : Bool
  communities : List String
  listenAddr : String

structure Config where
  devices : List DeviceConfig
  defaults : Defaults

/-- Device-rule match test: an absent regex matches any address. -/
def devMatches (d : DeviceConfig) (ip : String) : Bool :=
  match d.ipRegexMatch with
  | none => true
  | some m => m ip

/-- Embedding of `Config.MatchDevice`: first device whose regex is absent or
matches the address. -/
def matchDevice (cfg : Config) (ip : String) : Option DeviceConfig :=
  cfg.devices.find? (fun d => devMatches d ip)

/-- Go map lookup on an association list. -/
def assocOID (l : List (String × OIDMap)) (k : String) : Option OIDMap :=
  (l.find? (fun p => p.1 = k)).map Prod.snd

def dropLeadingDot (s : String) : String :=
  if s.startsWith "." then s.drop 1 else s

/-- Embedding of `findOIDMap`: scan devices in order, skip those whose regex
does not match, and look the OID up with and without the leading dot. -/
def findOIDMapIn : List DeviceConfig → String → String → Option OIDMap
  | [], _, _ => none
  | d :: rest, ip, noDot =>
      if devMatches d ip then
        match assocOID d.oids noDot with
        | some om => some om
        | none =>
            match assocOID d.oids ("." ++ noDot) with
            | some om => some om
            | none => findOIDMapIn rest ip noDot
      else findOIDMapIn rest ip noDot

def findOIDMap (cfg : Config) (ip oid : String) : Option OIDMap :=
  findOIDMapIn cfg.devices ip (dropLeadingDot oid)

/-! ## Registry (`agent.go`) -/

/-- Process-wide registry: textual IP to device state. -/
abbrev Registry : Type := String → Option DeviceState

def emptyRegistry : Registry := fun _ => none

def registrySet (r : Registry) (ip : String) (ds : DeviceState) : Registry :=
  fun k => if k = ip then some ds else r k

/-- Embedding of `Agent.EnsureDevice` restricted to its registry effect: build
a fresh state with a template-free fingerprint and store it unconditionally.
The `net.ParseIP` guard is omitted; `ip` stands for the textual form of an
address that parses. -/
def ensureDevice (r : Registry) (ip hostname : String) : Registry :=
  registrySet r ip (newDeviceState ip (deriveFingerprint ip hostname "") hostname)

/-! ## Trap handling (`receiver.go`, `trapReceiver.handle`).  The SNMP engine's
value decoding (`gosnmp.ToBigInt` followed by `Int64` and `float64`
conversion) is abstracted as an oracle `numValue`. -/

/-- Variable-binding values as the trap handler distinguishes them. -/
inductive VarValue where
  | vstr (s : String)
  | vbytes (s : String)
  | vother
deriving DecidableEq

/-- SysName extraction: the last `.1.3.6.1.2.1.1.5.0` binding with a string or
byte value wins, starting from the empty string. -/
def extractSysName (vars : List (String × VarValue)) : String :=
  vars.foldl
    (fun acc v =>
      if v.1 = ".1.3.6.1.2.1.1.5.0" then
        match v.2 with
        | .vstr s => s
        | .vbytes s => s
        | .vother => acc
      else acc)
    ""

def metaSysUpTime : String := ".1.3.6.1.2.1.1.3.0"
def metaTrapOID : String := ".1.3.6.1.6.3.1.1.4.1.0"
def metaSysName : String := ".1.3.6.1.2.1.1.5.0"

/-- Registry effect of one variable binding in `trapReceiver.handle`: skip meta
OIDs, look up the OID map, filter by category, decode the value through the
oracle, transform, and upsert into the sender's state. -/
def applyVarbind (cfg : Config) (numValue : VarValue → Option ℚ) (srcIp : String)
    (r : Registry) (v : String × VarValue) : Registry :=
  if v.1 = metaSysUpTime ∨ v.1 = metaTrapOID ∨ v.1 = metaSysName then r
  else
    match findOIDMap cfg srcIp v.1 with
    | none => r
    | some om =>
        if !shouldSend om then r
        else
          match numValue v.2 with
          | none => r
          | some q =>
              let f := transformValue om.scale q cfg.defaults.round1
              match r srcIp with
              | some ds => registrySet r srcIp (setMetric ds om.category om.name f)
              | none => r

/-- Registry effect of `trapReceiver.handle`: materialize an unknown sender
(first matching rule's templates; hostname falls back to sysName, then the
ip), then fold the variable bindings.  The `ensurePolling` and `Notify` calls
touch the poller and session layers, modelled separately. -/
def trapHandle (cfg : Config) (numValue : VarValue → Option ℚ) (r : Registry)
    (srcIp : String) (vars : List (String × VarValue)) : Registry :=
  let sysName := extractSysName vars
  let r1 :=
    match r srcIp with
    | some _ => r
    | none =>
        let dc := matchDevice cfg srcIp
        let fpTmpl := match dc with | some d => d.fingerTmpl | none => ""
        let hostTmpl := match dc with | some d => d.hostTmpl | none => ""
        let finger := deriveFingerprint srcIp sysName fpTmpl
        let host :=
          if hostTmpl ≠ "" then replacePlaceholders hostTmpl srcIp sysName
          else if sysName = "" then srcIp
          else sysName
        registrySet r srcIp (newDeviceState srcIp finger host)
  vars.foldl (applyVarbind cfg numValue srcIp) r1

/-! ## Poller (`poller.go` part of the package) -/

/-- First device rule with polling enabled whose regex is absent or matches. -/
def findPollRule (cfg : Config) (ip : String) : Option DeviceConfig :=
  cfg.devices.find? (fun d => d.poll && devMatches d ip)

/-- Embedding of `poller.ensurePolling`: the multiset of running poll loops is
modelled as the list of their IPs; a call spawns one more loop whenever a
poll-enabled rule matches, with no check for an existing loop. -/
def ensurePolling (cfg : Config) (loops : List String) (ip : String) : List String :=
  match findPollRule cfg ip with
  | some _ => loops ++ [ip]
  | none => loops

/-- Registry effect of `poller.pollOnce`: for each configured OID passing the
category filter, decode the GET result through the oracle (`none` covers GET
errors, empty results and non-numeric values — and a failed connect makes
every lookup `none`), transform, and upsert into the device's state.
`pollStep` is the loop body, `pollOnce` the whole batch. -/
def pollStep (cfg : Config) (snmpGet : String → Option ℚ) (ip : String)
    (r : Registry) (ov : String × OIDMap) : Registry :=
  if shouldSend ov.2 then
    match snmpGet ov.1 with
    | some q =>
        match r ip with
        | some ds =>
            registrySet r ip
              (setMetric ds ov.2.category ov.2.name (transformValue ov.2.scale q cfg.defaults.round1))
        | none => r
    | none => r
  else r

def pollOnce (cfg : Config) (snmpGet : String → Option ℚ) (r : Registry) (ip : String)
    (dc : DeviceConfig) : Registry :=
  dc.oids.foldl (pollStep cfg snmpGet ip) r

/-! ## Hub session layer (`clientFactory` / `deviceClient`).  SSH signature
verification (`golang.org/x/crypto/ssh`, `pubKey.Verify` over the token
bytes) is abstracted as an oracle `verifySig`. -/

/-- Per-session client state.  `connected` models `Conn != nil`. -/
structure DeviceClient where
  ip : String
  ds : DeviceState
  hubVerified : Bool
  connected : Bool
deriving DecidableEq

/-- Stats part of a `CombinedData` snapshot: the temperatures map is always
built (possibly empty); the other categories only when non-empty. -/
structure Stats where
  temperatures : MetricMap
  humidity : Option MetricMap
  co2 : Option MetricMap
  pressure : Option MetricMap
  pm25 : Option MetricMap
  pm10 : Option MetricMap
  voc : Option MetricMap
deriving DecidableEq

/-- Info part of a `CombinedData` snapshot, with the dashboard scalars.  Go
zero-values the fields not assigned in `buildCombinedData`. -/
structure Info where
  hostname : String
  agentVersion : String
  agentType : String
  dashboardTemp : ℚ
  dashboardHumidity : ℚ
  dashboardCO2 : ℚ
  dashboardPressure : ℚ
  dashboardPM25 : ℚ
  dashboardPM10 : ℚ
  dashboardVOC : ℚ
deriving DecidableEq

structure CombinedData where
  stats : Stats
  info : Info
deriving DecidableEq

/-- Loop body of `maxMap`: `if !set || v > max { max, set = v, true }`. -/
def maxStep (p : ℚ × Bool) (kv : String × ℚ) : ℚ × Bool :=
  if !p.2 ∨ kv.2 > p.1 then (kv.2, true) else p

/-- Embedding of `maxMap`: the Go loop with its `(max, set)` accumulator. -/
def maxMap (m : MetricMap) : ℚ := (m.foldl maxStep ((0 : ℚ), false)).1

/-- Loop body of `avgMap`: accumulate the sum and the count. -/
def avgStep (p : ℚ × ℕ) (kv : String × ℚ) : ℚ × ℕ := (p.1 + kv.2, p.2 + 1)

/-- Embedding of `avgMap`: sum and count, zero for an empty map. -/
def avgMap (m : MetricMap) : ℚ :=
  let p := m.foldl avgStep ((0 : ℚ), (0 : ℕ))
  if p.2 = 0 then 0 else p.1 / p.2

/-- Conditional dashboard assignment for temperatures, one per Go `if` in
`buildCombinedData`. -/
def setDashTemp (ds : DeviceState) (i : Info) : Info :=
  if ds.lastTemps.length > 0 then { i with dashboardTemp := maxMap ds.lastTemps } else i

def setDashHumidity (ds : DeviceState) (i : Info) : Info :=
  if ds.lastHumidity.length > 0 then { i with dashboardHumidity := maxMap ds.lastHumidity } else i

def setDashCO2 (ds : DeviceState) (i : Info) : Info :=
  if ds.lastCO2.length > 0 then { i with dashboardCO2 := maxMap ds.lastCO2 } else i

/-- Pressure is the one category averaged instead of maximized. -/
def setDashPressure (ds : DeviceState) (i : Info) : Info :=
  if ds.lastPressure.length > 0 then { i with dashboardPressure := avgMap ds.lastPressure } else i

def setDashPM25 (ds : DeviceState) (i : Info) : Info :=
  if ds.lastPM25.length > 0 then { i with dashboardPM25 := maxMap ds.lastPM25 } else i

def setDashPM10 (ds : DeviceState) (i : Info) : Info :=
  if ds.lastPM10.length > 0 then { i with dashboardPM10 := maxMap ds.lastPM10 } else i

def setDashVOC (ds : DeviceState) (i : Info) : Info :=
  if ds.lastVOC.length > 0 then { i with dashboardVOC := maxMap ds.lastVOC } else i

/-- Embedding of `deviceState.buildCombinedData`: copy the category maps into
the stats (temperatures unconditionally, the rest only when non-empty), then
apply the seven conditional dashboard assignments in source order to the
zero-initialized info record. -/
def buildCombinedData (ds : DeviceState) (agentVersion : String) : CombinedData :=
  let stats : Stats :=
    { temperatures := ds.lastTemps
      humidity := if ds.lastHumidity.length > 0 then some ds.lastHumidity else none
      co2 := if ds.lastCO2.length > 0 then some ds.lastCO2 else none
      pressure := if ds.lastPressure.length > 0 then some ds.lastPressure else none
      pm25 := if ds.lastPM25.length > 0 then some ds.lastPM25 else none
      pm10 := if ds.lastPM10.length > 0 then some ds.lastPM10 else none
      voc := if ds.lastVOC.length > 0 then some ds.lastVOC else none }
  let info0 : Info :=
    { hostname := ds.hostname, agentVersion := agentVersion, agentType := "snmp"
      dashboardTemp := 0, dashboardHumidity := 0, dashboardCO2 := 0, dashboardPressure := 0
      dashboardPM25 := 0, dashboardPM10 := 0, dashboardVOC := 0 }
  { stats := stats
    info := setDashVOC ds (setDashPM10 ds (setDashPM25 ds (setDashPressure ds
      (setDashCO2 ds (setDashHumidity ds (setDashTemp ds info0)))))) }

/-- Inbound hub frames as `deviceClient.OnMessage` distinguishes them.  A
`checkFingerprint` carries the raw signature bytes; `nonBinary` is a text
frame and `undecodable` a binary frame that fails to decode. -/
inductive InMsg where
  | checkFingerprint (sig : List Nat) (needSysInfo : Bool)
  | getData
  | nonBinary
  | undecodable
deriving DecidableEq

/-- Outbound frames the session can write. -/
inductive OutFrame where
  | fingerprintResponse (fingerprint : String) (hostname : Option String)
  | combinedData (cd : CombinedData)
deriving DecidableEq

/-- Embedding of `deviceClient.send`: nothing unless connected and verified;
nothing when the snapshot's temperatures map is empty; otherwise the one
serialized `CombinedData` frame. -/
def sendData (agentVersion : String) (dc : DeviceClient) : List OutFrame :=
  if !dc.connected || !dc.hubVerified then []
  else
    let cd := buildCombinedData dc.ds agentVersion
    if cd.stats.temperatures.length = 0 then []
    else [.combinedData cd]

/-- Embedding of `deviceClient.OnMessage`: the inbound handler, parametrized by
the SSH verification oracle.  It returns the successor client state and the
frames written by the handler. -/
def onMessage (verifySig : List Nat → Bool) (agentVersion : String) (dc : DeviceClient)
    (msg : InMsg) : DeviceClient × List OutFrame :=
  match msg with
  | .nonBinary => (dc, [])
  | .undecodable => (dc, [])
  | .checkFingerprint sig need =>
      if verifySig sig then
        let dc' := { dc with hubVerified := true }
        let hostname := if need then some dc.ds.hostname else none
        (dc', [.fingerprintResponse dc.ds.finger hostname])
      else (dc, [])
  | .getData => (dc, sendData agentVersion dc)

/-- Session map of the client factory, keyed by textual IP. -/
abbrev Conns : Type := List (String × DeviceClient)

def connsLookup (conns : Conns) (key : String) : Option DeviceClient :=
  (conns.find? (fun p => p.1 = key)).map Prod.snd

/-- Embedding of `clientFactory.Notify`: when no session exists for the IP and
the registry has a state, insert a fresh unconnected session (its `connect`
runs asynchronously); in every case write no data frames. -/
def notify (r : Registry) (conns : Conns) (ip : String) : Conns × List OutFrame :=
  match connsLookup conns ip with
  | some _ => (conns, [])
  | none =>
      match r ip with
      | some ds =>
          (conns ++ [(ip, { ip := ip, ds := ds, hubVerified := false, connected := false })], [])
      | none => (conns, [])

/-! ## Concrete data used by counterexamples and witnesses -/

/-- Fingerprint recorded for an IP, if a state exists. -/
def fingerAt (r : Registry) (ip : String) : Option String := (r ip).map DeviceState.finger

/-- Witness device state with entries in every category. -/
def wDS : DeviceState :=
  ⟨"10.0.0.1", "f0", "host", [("t1", 21)], [("h1", 55)], [("c1", 400)],
   [("p1", 1000), ("p2", 1002)], [("m1", 5)], [("n1", 7)], [("v1", 3)]⟩

/-- Witness session client: connected and verified, with `wDS` as its state. -/
def wClient : DeviceClient :=
  { ip := "10.0.0.1", ds := wDS, hubVerified := true, connected := true }

/-- Witness session client that is connected but not yet verified. -/
def wUnverified : DeviceClient :=
  { ip := "10.0.0.1", ds := wDS, hubVerified := false, connected := true }

/-- Device state whose only entries are in the humidity map. -/
def humidityOnlyDS : DeviceState :=
  ⟨"10.0.0.2", "f1", "h2", [], [("h1", 42)], [], [], [], [], []⟩

/-- Verified, connected session over `humidityOnlyDS`. -/
def humidityOnlyClient : DeviceClient :=
  { ip := "10.0.0.2", ds := humidityOnlyDS, hubVerified := true, connected := true }

/-- Device rule with polling enabled and no ip regex (matches any address). -/
def pollAllDevice : DeviceConfig :=
  { ipRegexMatch := none, fingerTmpl := "", hostTmpl := "", poll := true,
    pollIntervalSec := 30, communities := [], oids := [] }

/-- Configuration holding just the poll-enabled catch-all rule. -/
def pollAllConfig : Config :=
  { devices := [pollAllDevice],
    defaults := { round1 := false, logUnknown := false, communities := [], listenAddr := ":9162" } }

/-- Registry holding one synthetic state for `1.2.3.4`. -/
def wReg : Registry := registrySet emptyRegistry "1.2.3.4" (newDeviceState "1.2.3.4" "abc" "h")

/-- Session map already holding a session for `1.2.3.4`. -/
def wConns : Conns :=
  [("1.2.3.4", { ip := "1.2.3.4", ds := newDeviceState "1.2.3.4" "abc" "h",
                 hubVerified := false, connected := false })]


/-! ## Supporting lemmas -/

theorem beBytes_length (n x : Nat) : (beBytes n x).length = n := by
  induction n generalizing x with
  | zero => rfl
  | succ n ih => simp [beBytes, ih]

theorem sha256_length (msg : List Nat) : (sha256 msg).length = 32 := by
  simp [sha256, digestBytes, beBytes_length]

theorem hexChars_length (bs : List Nat) : (hexChars bs).length = 2 * bs.length := by
  induction bs with
  | nil => rfl
  | cons b rest ih => simp [hexChars, ih]; ring

theorem hextable_getD_mem (n : Nat) : hextable.contains (hextable.getD n '0') = true := by
  by_cases h : n < 16
  · interval_cases n <;> decide
  · rw [List.getD_eq_default]
    · decide
    · simpa [hextable] using Nat.le_of_not_lt h

theorem hexChars_all_hex (bs : List Nat) :
    (hexChars bs).all (fun c => hextable.contains c) = true := by
  induction bs with
  | nil => rfl
  | cons b rest ih => simp only [hexChars, List.all_cons, ih, hextable_getD_mem]; rfl

/-! ## Claim C4 — fingerprint derivation -/

/-- C4: for every `(ip, sysName, template)`, the derived fingerprint equals the
lowercase hex encoding of the first 24 bytes of SHA-256 of the base string
(the substituted template when the template is non-empty, else
`sysName-ip` when the system name is non-empty, else the bare ip), and is
always exactly 48 characters drawn from the lowercase hex alphabet.
Determinism is inherent: `deriveFingerprint` is a pure function of the three
inputs. -/
theorem deriveFingerprint_spec (ip sysName tmpl : String) :
    deriveFingerprint ip sysName tmpl =
      String.mk (hexChars ((sha256 (strBytes (specBase ip sysName tmpl))).take 24)) ∧
    (deriveFingerprint ip sysName tmpl).length = 48 ∧
    (deriveFingerprint ip sysName tmpl).data.all (fun c => hextable.contains c) = true := by
  refine ⟨?_, ?_, ?_⟩
  · by_cases ht : tmpl = "" <;> by_cases hs : sysName = "" <;>
      simp [deriveFingerprint, specBase, ht, hs]
  · simp [deriveFingerprint, String.length, hexChars_length, List.length_take, sha256_length]
  · simpa [deriveFingerprint] using
      hexChars_all_hex ((sha256 (strBytes (if tmpl ≠ "" then replacePlaceholders tmpl ip sysName
        else if sysName ≠ "" then sysName ++ "-" ++ ip else ip))).take 24)

/-! ## Claim C7 — value transform -/

/-- C7: for every value and scale, the transform divides by the scale (a zero
scale counting as one); with rounding enabled the result is additionally
rounded to one decimal place with ties away from zero
(`round1(x) = round(x*10)/10`), witnessed on the tie `2.5 → 3` and
`-2.5 → -3` at one decimal. -/
theorem transformValue_spec (v s : ℚ) :
    transformValue s v false = v / (if s = 0 then 1 else s) ∧
    transformValue s v true = specRound1 (v / (if s = 0 then 1 else s)) ∧
    transformValue 1 (1 / 4) true = 3 / 10 ∧
    transformValue 1 (-1 / 4) true = -(3 / 10) := by
  refine ⟨by simp [transformValue], by simp [transformValue, specRound1], ?_, ?_⟩ <;>
    norm_num [transformValue, mathRound]

/-! ## Claim C6 — category routing of `setMetric` -/

/-- C6: every `setMetric(category, name, value)` call upserts `(name, value)`
into exactly one category map when the case-insensitive category is in the
closed set `{temperature, humidity, co2, pressure, pm25, pm10, voc}` or one
of the aliases `temp`/`t`, `hum`/`h`, `press`/`pr`, and leaves the state
completely unchanged for any other category. -/
theorem setMetric_routes_by_category (ds : DeviceState) (category name : String) (v : ℚ) :
    setMetric ds category name v =
      (match categoryOf category with
       | some c => applyCategory ds c name v
       | none => ds) := by
  simp only [setMetric, categoryOf, applyCategory]
  repeat' split <;> try rfl

/-! ## Claim C8 — dashboard scalars -/

theorem foldl_maxStep_true (t : List (String × ℚ)) (q : ℚ) :
    t.foldl maxStep (q, true) = (t.foldl (fun a kv => max a kv.2) q, true) := by
  induction t generalizing q with
  | nil => rfl
  | cons kv t ih =>
      simp only [List.foldl_cons]
      by_cases h : kv.2 > q
      · rw [show maxStep (q, true) kv = (kv.2, true) from by simp [maxStep, h], ih,
          max_eq_right h.le]
      · rw [show maxStep (q, true) kv = (q, true) from by simp [maxStep, h], ih,
          max_eq_left (le_of_not_lt h)]

theorem foldl_max_mem (t : List (String × ℚ)) (q : ℚ) :
    t.foldl (fun a kv => max a kv.2) q = q ∨
    t.foldl (fun a kv => max a kv.2) q ∈ t.map Prod.snd := by
  induction t generalizing q with
  | nil => left; rfl
  | cons kv t ih =>
      simp only [List.foldl_cons, List.map_cons]
      rcases ih (max q kv.2) with h | h
      · rcases max_choice q kv.2 with hm | hm
        · left; rw [h, hm]
        · right; rw [h, hm]; exact List.mem_cons_self _ _
      · right; exact List.mem_cons_of_mem _ h

theorem le_foldl_max (t : List (String × ℚ)) (q : ℚ) :
    q ≤ t.foldl (fun a kv => max a kv.2) q ∧
    ∀ v ∈ t.map Prod.snd, v ≤ t.foldl (fun a kv => max a kv.2) q := by
  induction t generalizing q with
  | nil => exact ⟨le_refl q, by simp⟩
  | cons kv t ih =>
      simp only [List.foldl_cons, List.map_cons]
      obtain ⟨h1, h2⟩ := ih (max q kv.2)
      refine ⟨le_trans (le_max_left _ _) h1, ?_⟩
      intro v hv
      rcases List.mem_cons.mp hv with rfl | hv
      · exact le_trans (le_max_right _ _) h1
      · exact h2 v hv

theorem maxMap_cons (kv : String × ℚ) (t : List (String × ℚ)) :
    maxMap (kv :: t) = t.foldl (fun a kv => max a kv.2) kv.2 := by
  simp only [maxMap, List.foldl_cons]
  rw [show maxStep (0, false) kv = (kv.2, true) from by simp [maxStep], foldl_maxStep_true]

theorem maxMap_is_greatest (m : MetricMap) (hm : m ≠ []) :
    maxMap m ∈ m.map Prod.snd ∧ ∀ v ∈ m.map Prod.snd, v ≤ maxMap m := by
  cases m with
  | nil => exact absurd rfl hm
  | cons kv t =>
      rw [maxMap_cons]
      constructor
      · rcases foldl_max_mem t kv.2 with h | h
        · rw [h]; simp
        · exact List.mem_cons_of_mem _ h
      · intro v hv
        rw [List.map_cons] at hv
        rcases List.mem_cons.mp hv with rfl | hv2
        · exact (le_foldl_max t kv.2).1
        · exact (le_foldl_max t kv.2).2 v hv2

theorem foldl_avgStep (l : List (String × ℚ)) (a : ℚ) (n : ℕ) :
    l.foldl avgStep (a, n) = (a + (l.map Prod.snd).sum, n + l.length) := by
  induction l generalizing a n with
  | nil => simp
  | cons kv t ih =>
      simp only [List.foldl_cons, avgStep, List.map_cons, List.sum_cons, List.length_cons]
      rw [ih]
      refine Prod.ext ?_ ?_ <;> simp <;> ring

theorem avgMap_eq_mean (m : MetricMap) (hm : m ≠ []) :
    avgMap m = (m.map Prod.snd).sum / m.length := by
  have hlen : m.length ≠ 0 := fun h => hm (List.length_eq_zero.mp h)
  simp only [avgMap, foldl_avgStep]
  simp [hlen]

theorem setDashTemp_eq (ds : DeviceState) (i : Info) :
    setDashTemp ds i =
      { i with dashboardTemp := if ds.lastTemps.length > 0 then maxMap ds.lastTemps
                                else i.dashboardTemp } := by
  unfold setDashTemp; split <;> rfl

theorem setDashHumidity_eq (ds : DeviceState) (i : Info) :
    setDashHumidity ds i =
      { i with dashboardHumidity := if ds.lastHumidity.length > 0 then maxMap ds.lastHumidity
                                    else i.dashboardHumidity } := by
  unfold setDashHumidity; split <;> rfl

theorem setDashCO2_eq (ds : DeviceState) (i : Info) :
    setDashCO2 ds i =
      { i with dashboardCO2 := if ds.lastCO2.length > 0 then maxMap ds.lastCO2
                               else i.dashboardCO2 } := by
  unfold setDashCO2; split <;> rfl

theorem setDashPressure_eq (ds : DeviceState) (i : Info) :
    setDashPressure ds i =
      { i with dashboardPressure := if ds.lastPressure.length > 0 then avgMap ds.lastPressure
                                    else i.dashboardPressure } := by
  unfold setDashPressure; split <;> rfl

theorem setDashPM25_eq (ds : DeviceState) (i : Info) :
    setDashPM25 ds i =
      { i with dashboardPM25 := if ds.lastPM25.length > 0 then maxMap ds.lastPM25
                                else i.dashboardPM25 } := by
  unfold setDashPM25; split <;> rfl

theorem setDashPM10_eq (ds : DeviceState) (i : Info) :
    setDashPM10 ds i =
      { i with dashboardPM10 := if ds.lastPM10.length > 0 then maxMap ds.lastPM10
                                else i.dashboardPM10 } := by
  unfold setDashPM10; split <;> rfl

theorem setDashVOC_eq (ds : DeviceState) (i : Info) :
    setDashVOC ds i =
      { i with dashboardVOC := if ds.lastVOC.length > 0 then maxMap ds.lastVOC
                               else i.dashboardVOC } := by
  unfold setDashVOC; split <;> rfl

theorem buildCombinedData_info (ds : DeviceState) (ver : String) :
    (buildCombinedData ds ver).info =
      { hostname := ds.hostname, agentVersion := ver, agentType := "snmp"
        dashboardTemp := if ds.lastTemps.length > 0 then maxMap ds.lastTemps else 0
        dashboardHumidity := if ds.lastHumidity.length > 0 then maxMap ds.lastHumidity else 0
        dashboardCO2 := if ds.lastCO2.length > 0 then maxMap ds.lastCO2 else 0
        dashboardPressure := if ds.lastPressure.length > 0 then avgMap ds.lastPressure else 0
        dashboardPM25 := if ds.lastPM25.length > 0 then maxMap ds.lastPM25 else 0
        dashboardPM10 := if ds.lastPM10.length > 0 then maxMap ds.lastPM10 else 0
        dashboardVOC := if ds.lastVOC.length > 0 then maxMap ds.lastVOC else 0 } := by
  show setDashVOC ds (setDashPM10 ds (setDashPM25 ds (setDashPressure ds
      (setDashCO2 ds (setDashHumidity ds (setDashTemp ds _)))))) = _
  rw [setDashTemp_eq, setDashHumidity_eq, setDashCO2_eq, setDashPressure_eq,
    setDashPM25_eq, setDashPM10_eq, setDashVOC_eq]

theorem info_dashTemp_pos (ds : DeviceState) (ver : String) (h : ds.lastTemps ≠ []) :
    (buildCombinedData ds ver).info.dashboardTemp = maxMap ds.lastTemps := by
  simp [buildCombinedData_info, List.length_pos.mpr h]

theorem info_dashHumidity_pos (ds : DeviceState) (ver : String) (h : ds.lastHumidity ≠ []) :
    (buildCombinedData ds ver).info.dashboardHumidity = maxMap ds.lastHumidity := by
  simp [buildCombinedData_info, List.length_pos.mpr h]

theorem info_dashCO2_pos (ds : DeviceState) (ver : String) (h : ds.lastCO2 ≠ []) :
    (buildCombinedData ds ver).info.dashboardCO2 = maxMap ds.lastCO2 := by
  simp [buildCombinedData_info, List.length_pos.mpr h]

theorem info_dashPressure_pos (ds : DeviceState) (ver : String) (h : ds.lastPressure ≠ []) :
    (buildCombinedData ds ver).info.dashboardPressure = avgMap ds.lastPressure := by
  simp [buildCombinedData_info, List.length_pos.mpr h]

theorem info_dashPM25_pos (ds : DeviceState) (ver : String) (h : ds.lastPM25 ≠ []) :
    (buildCombinedData ds ver).info.dashboardPM25 = maxMap ds.lastPM25 := by
  simp [buildCombinedData_info, List.length_pos.mpr h]

theorem info_dashPM10_pos (ds : DeviceState) (ver : String) (h : ds.lastPM10 ≠ []) :
    (buildCombinedData ds ver).info.dashboardPM10 = maxMap ds.lastPM10 := by
  simp [buildCombinedData_info, List.length_pos.mpr h]

theorem info_dashVOC_pos (ds : DeviceState) (ver : String) (h : ds.lastVOC ≠ []) :
    (buildCombinedData ds ver).info.dashboardVOC = maxMap ds.lastVOC := by
  simp [buildCombinedData_info, List.length_pos.mpr h]

/-- C8: in the snapshot payload, each dashboard scalar equals the maximum of
the category's current values for temperature, humidity, CO2, PM2.5, PM10 and
VOC (stated as: it is one of the values and no value exceeds it), equals the
arithmetic mean of the values for pressure, and stays zero for a category
with no entries. -/
theorem dashboard_scalars_spec (ds : DeviceState) (ver : String) :
    (ds.lastTemps = [] → (buildCombinedData ds ver).info.dashboardTemp = 0) ∧
    (ds.lastTemps ≠ [] →
      (buildCombinedData ds ver).info.dashboardTemp ∈ ds.lastTemps.map Prod.snd ∧
      ∀ v ∈ ds.lastTemps.map Prod.snd, v ≤ (buildCombinedData ds ver).info.dashboardTemp) ∧
    (ds.lastHumidity = [] → (buildCombinedData ds ver).info.dashboardHumidity = 0) ∧
    (ds.lastHumidity ≠ [] →
      (buildCombinedData ds ver).info.dashboardHumidity ∈ ds.lastHumidity.map Prod.snd ∧
      ∀ v ∈ ds.lastHumidity.map Prod.snd, v ≤ (buildCombinedData ds ver).info.dashboardHumidity) ∧
    (ds.lastCO2 = [] → (buildCombinedData ds ver).info.dashboardCO2 = 0) ∧
    (ds.lastCO2 ≠ [] →
      (buildCombinedData ds ver).info.dashboardCO2 ∈ ds.lastCO2.map Prod.snd ∧
      ∀ v ∈ ds.lastCO2.map Prod.snd, v ≤ (buildCombinedData ds ver).info.dashboardCO2) ∧
    (ds.lastPM25 = [] → (buildCombinedData ds ver).info.dashboardPM25 = 0) ∧
    (ds.lastPM25 ≠ [] →
      (buildCombinedData ds ver).info.dashboardPM25 ∈ ds.lastPM25.map Prod.snd ∧
      ∀ v ∈ ds.lastPM25.map Prod.snd, v ≤ (buildCombinedData ds ver).info.dashboardPM25) ∧
    (ds.lastPM10 = [] → (buildCombinedData ds ver).info.dashboardPM10 = 0) ∧
    (ds.lastPM10 ≠ [] →
      (buildCombinedData ds ver).info.dashboardPM10 ∈ ds.lastPM10.map Prod.snd ∧
      ∀ v ∈ ds.lastPM10.map Prod.snd, v ≤ (buildCombinedData ds ver).info.dashboardPM10) ∧
    (ds.lastVOC = [] → (buildCombinedData ds ver).info.dashboardVOC = 0) ∧
    (ds.lastVOC ≠ [] →
      (buildCombinedData ds ver).info.dashboardVOC ∈ ds.lastVOC.map Prod.snd ∧
      ∀ v ∈ ds.lastVOC.map Prod.snd, v ≤ (buildCombinedData ds ver).info.dashboardVOC) ∧
    (ds.lastPressure = [] → (buildCombinedData ds ver).info.dashboardPressure = 0) ∧
    (ds.lastPressure ≠ [] →
      (buildCombinedData ds ver).info.dashboardPressure =
        (ds.lastPressure.map Prod.snd).sum / ds.lastPressure.length) := by
  refine ⟨?_, ?_, ?_, ?_, ?_, ?_, ?_, ?_, ?_, ?_, ?_, ?_, ?_, ?_⟩ <;> intro h
  · simp [buildCombinedData_info, h]
  · simp only [info_dashTemp_pos ds ver h]; exact maxMap_is_greatest _ h
  · simp [buildCombinedData_info, h]
  · simp only [info_dashHumidity_pos ds ver h]; exact maxMap_is_greatest _ h
  · simp [buildCombinedData_info, h]
  · simp only [info_dashCO2_pos ds ver h]; exact maxMap_is_greatest _ h
  · simp [buildCombinedData_info, h]
  · simp only [info_dashPM25_pos ds ver h]; exact maxMap_is_greatest _ h
  · simp [buildCombinedData_info, h]
  · simp only [info_dashPM10_pos ds ver h]; exact maxMap_is_greatest _ h
  · simp [buildCombinedData_info, h]
  · simp only [info_dashVOC_pos ds ver h]; exact maxMap_is_greatest _ h
  · simp [buildCombinedData_info, h]
  · rw [info_dashPressure_pos ds ver h, avgMap_eq_mean _ h]

/-- Witness for C8 at a concrete device state. -/
theorem dashboard_scalars_spec_witness :
    (buildCombinedData wDS "v").info.dashboardTemp ∈ wDS.lastTemps.map Prod.snd ∧
    (buildCombinedData wDS "v").info.dashboardPressure =
      (wDS.lastPressure.map Prod.snd).sum / wDS.lastPressure.length := by
  obtain ⟨-, a2, -, -, -, -, -, -, -, -, -, -, -, a14⟩ := dashboard_scalars_spec wDS "v"
  exact ⟨(a2 (by decide)).1, a14 (by decide)⟩

/-! ## Claim C5 — fingerprint write-once -/

theorem setMetric_finger (ds : DeviceState) (c n : String) (v : ℚ) :
    (setMetric ds c n v).finger = ds.finger := by
  simp only [setMetric]
  repeat' split <;> try rfl

theorem applyVarbind_fingerAt (cfg : Config) (numValue : VarValue → Option ℚ)
    (srcIp : String) (r : Registry) (v : String × VarValue) (ip' : String) :
    fingerAt (applyVarbind cfg numValue srcIp r v) ip' = fingerAt r ip' := by
  unfold applyVarbind
  repeat' split <;> try rfl
  rename_i ds hds
  unfold fingerAt registrySet
  by_cases hip : ip' = srcIp
  · simp [hip, setMetric_finger, hds]
  · simp [hip]

theorem pollStep_fingerAt (cfg : Config) (snmpGet : String → Option ℚ) (ip : String)
    (r : Registry) (ov : String × OIDMap) (ip' : String) :
    fingerAt (pollStep cfg snmpGet ip r ov) ip' = fingerAt r ip' := by
  unfold pollStep
  repeat' split <;> try rfl
  rename_i ds hds
  unfold fingerAt registrySet
  by_cases hip : ip' = ip
  · simp [hip, setMetric_finger, hds]
  · simp [hip]

/-- C5 counterexample: after a state for `1.2.3.4` exists (created by a first
`EnsureDevice` with hostname `hostA`), a second `EnsureDevice` call for the
same IP replaces the state and changes the recorded fingerprint. -/
theorem ensureDevice_changes_fingerprint :
    ((ensureDevice emptyRegistry "1.2.3.4" "hostA") "1.2.3.4").isSome = true ∧
    fingerAt (ensureDevice (ensureDevice emptyRegistry "1.2.3.4" "hostA") "1.2.3.4" "")
        "1.2.3.4" ≠
      fingerAt (ensureDevice emptyRegistry "1.2.3.4" "hostA") "1.2.3.4" := by
  constructor
  · rfl
  · decide

/-- C5 (amended): trap handling and poll updates leave the fingerprint of every
registered IP unchanged; `EnsureDevice`, by contrast, overwrites the state
unconditionally and can change the fingerprint (see the counterexample). -/
theorem trap_poll_preserve_fingerprint
    (cfg : Config) (numValue : VarValue → Option ℚ) (snmpGet : String → Option ℚ)
    (r : Registry) (srcIp pollIp ip' : String) (vars : List (String × VarValue))
    (dc : DeviceConfig) (h : (r ip').isSome = true) :
    fingerAt (trapHandle cfg numValue r srcIp vars) ip' = fingerAt r ip' ∧
    fingerAt (pollOnce cfg snmpGet r pollIp dc) ip' = fingerAt r ip' := by
  constructor
  · have hfold : ∀ (vs : List (String × VarValue)) (r0 : Registry),
        fingerAt (vs.foldl (applyVarbind cfg numValue srcIp) r0) ip' = fingerAt r0 ip' := by
      intro vs
      induction vs with
      | nil => intro r0; rfl
      | cons v t ih =>
          intro r0
          rw [List.foldl_cons, ih, applyVarbind_fingerAt]
    unfold trapHandle
    rw [hfold]
    split
    · rfl
    · rename_i heq
      have hip : ip' ≠ srcIp := by
        intro e
        rw [e, heq] at h
        simp at h
      unfold fingerAt registrySet
      simp [hip]
  · have hfold : ∀ (os : List (String × OIDMap)) (r0 : Registry),
        fingerAt (os.foldl (pollStep cfg snmpGet pollIp) r0) ip' = fingerAt r0 ip' := by
      intro os
      induction os with
      | nil => intro r0; rfl
      | cons ov t ih =>
          intro r0
          rw [List.foldl_cons, ih, pollStep_fingerAt]
    unfold pollOnce
    rw [hfold]

/-- Witness for the amended C5 at a concrete registry and empty trap. -/
theorem trap_poll_preserve_fingerprint_witness :
    fingerAt (trapHandle pollAllConfig (fun _ => none) wReg "1.2.3.4" []) "1.2.3.4" =
      fingerAt wReg "1.2.3.4" ∧
    fingerAt (pollOnce pollAllConfig (fun _ => none) wReg "1.2.3.4" pollAllDevice) "1.2.3.4" =
      fingerAt wReg "1.2.3.4" :=
  trap_poll_preserve_fingerprint pollAllConfig (fun _ => none) (fun _ => none)
    wReg "1.2.3.4" "1.2.3.4" "1.2.3.4" [] pollAllDevice (by rfl)

/-! ## Claim C9 — ensurePolling -/

/-- C9 counterexample: with a poll-enabled catch-all rule, two `ensurePolling`
calls for the same IP leave two running poll loops, so `ensurePolling` is not
idempotent and more than one loop can run per device IP. -/
theorem ensurePolling_not_idempotent :
    (ensurePolling pollAllConfig (ensurePolling pollAllConfig [] "1.2.3.4") "1.2.3.4").count
      "1.2.3.4" = 2 := by
  decide

/-- C9 (amended): every `ensurePolling(ip)` call starts one new poll loop
whenever some poll-enabled device rule matches the IP, and none otherwise;
the at-most-one-loop property holds only through call-site discipline, not
through `ensurePolling` itself. -/
theorem ensurePolling_appends_one_loop (cfg : Config) (loops : List String) (ip : String) :
    ((findPollRule cfg ip).isSome = true → ensurePolling cfg loops ip = loops ++ [ip]) ∧
    (findPollRule cfg ip = none → ensurePolling cfg loops ip = loops) := by
  refine ⟨fun h => ?_, fun h => ?_⟩
  · cases hfp : findPollRule cfg ip with
    | none => rw [hfp] at h; simp at h
    | some d => simp [ensurePolling, hfp]
  · simp [ensurePolling, h]

/-- Witness for the amended C9 at the concrete poll-enabled config. -/
theorem ensurePolling_appends_one_loop_witness :
    ensurePolling pollAllConfig [] "1.2.3.4" = [] ++ ["1.2.3.4"] :=
  (ensurePolling_appends_one_loop pollAllConfig [] "1.2.3.4").1 (by rfl)

/-! ## Claim C10 — notify and session creation -/

theorem connsLookup_append_self (conns : Conns) (ip : String) (dc : DeviceClient)
    (h : connsLookup conns ip = none) :
    connsLookup (conns ++ [(ip, dc)]) ip = some dc := by
  induction conns with
  | nil => simp [connsLookup]
  | cons hd t ih =>
      unfold connsLookup at h ⊢
      rw [List.cons_append]
      by_cases hh : hd.1 = ip
      · rw [List.find?_cons_of_pos _ (by simpa using hh)] at h
        simp at h
      · rw [List.find?_cons_of_neg _ (by simpa using hh)] at h ⊢
        exact ih h

/-- C10 counterexample: `notify` for an IP with no registered device state
inserts nothing, so the session map need not contain a session for the IP
after `notify` returns. -/
theorem notify_without_state_no_session :
    connsLookup (notify emptyRegistry [] "1.2.3.4").1 "1.2.3.4" = none := by
  rfl

/-- C10 (amended): `notify(ip)` lazily creates a session on the first call
provided the registry holds a device state for the IP; when a session already
exists the map is unchanged; and when the registry has no state for the IP
nothing is inserted. -/
theorem notify_lazy_session (r : Registry) (conns : Conns) (ip : String) :
    ((connsLookup conns ip).isSome = true → (notify r conns ip).1 = conns) ∧
    (connsLookup conns ip = none → (r ip).isSome = true →
      (connsLookup (notify r conns ip).1 ip).isSome = true) ∧
    (connsLookup conns ip = none → r ip = none → (notify r conns ip).1 = conns) := by
  refine ⟨fun h => ?_, fun h1 h2 => ?_, fun h1 h2 => ?_⟩
  · cases hc : connsLookup conns ip with
    | none => rw [hc] at h; simp at h
    | some dc => simp [notify, hc]
  · cases hr : r ip with
    | none => rw [hr] at h2; simp at h2
    | some ds =>
        simp only [notify, h1, hr]
        rw [connsLookup_append_self conns ip _ h1]
        rfl
  · simp [notify, h1, h2]

/-- Witness for the amended C10: with a registered state a session appears;
with an existing session the map is unchanged. -/
theorem notify_lazy_session_witness :
    (connsLookup (notify wReg [] "1.2.3.4").1 "1.2.3.4").isSome = true ∧
    (notify wReg wConns "1.2.3.4").1 = wConns :=
  ⟨(notify_lazy_session wReg [] "1.2.3.4").2.1 (by rfl) (by rfl),
   (notify_lazy_session wReg wConns "1.2.3.4").1 (by rfl)⟩

/-! ## Claim C1 — CombinedData frames only answer GetData on a verified session -/

theorem buildCombinedData_temps (ds : DeviceState) (ver : String) :
    (buildCombinedData ds ver).stats.temperatures = ds.lastTemps := rfl

/-- C1: `notify` writes no frames at all, and a `CombinedData` frame appears in
a handler's output only when the inbound message is `GetData` and the
session's verified flag is already true — so a data frame is only ever written
from within the `GetData` handler of a verified session. -/
theorem combined_frames_only_from_getData :
    (∀ (r : Registry) (conns : Conns) (ip : String), (notify r conns ip).2 = []) ∧
    (∀ (verifySig : List Nat → Bool) (ver : String) (dc : DeviceClient) (msg : InMsg)
        (cd : CombinedData),
      OutFrame.combinedData cd ∈ (onMessage verifySig ver dc msg).2 →
        msg = InMsg.getData ∧ dc.hubVerified = true) := by
  constructor
  · intro r conns ip
    unfold notify
    repeat' split <;> try rfl
  · intro verifySig ver dc msg cd hmem
    cases msg with
    | nonBinary => simp [onMessage] at hmem
    | undecodable => simp [onMessage] at hmem
    | checkFingerprint sig need =>
        by_cases hv : verifySig sig <;> simp [onMessage, hv] at hmem
    | getData =>
        refine ⟨rfl, ?_⟩
        simp only [onMessage] at hmem
        unfold sendData at hmem
        split at hmem
        · simp at hmem
        · rename_i hcond
          simp at hcond
          exact hcond.2

/-- Witness for C1 at a verified, connected client with a non-empty snapshot. -/
theorem combined_frames_only_from_getData_witness :
    InMsg.getData = InMsg.getData ∧ wClient.hubVerified = true :=
  combined_frames_only_from_getData.2 (fun _ => true) "v" wClient InMsg.getData
    (buildCombinedData wDS "v")
    (by
      have h : (onMessage (fun _ => true) "v" wClient InMsg.getData).2 =
          [OutFrame.combinedData (buildCombinedData wDS "v")] := rfl
      rw [h]
      exact List.mem_cons_self _ _)

/-! ## Claim C2 — CheckFingerprint handling -/

/-- C2: on `CheckFingerprint{signature, need_sys_info}`, a verifying signature
marks the session verified and produces exactly one `FingerprintResponse`
carrying the device fingerprint, with the hostname present iff
`need_sys_info`; a non-verifying signature produces no frame and leaves the
client state (including the verified flag) unchanged.  The SSH check itself
(`pubKey.Verify` over the token bytes) is the oracle `verifySig`. -/
theorem checkFingerprint_auth (verifySig : List Nat → Bool) (ver : String) (dc : DeviceClient)
    (sig : List Nat) (need : Bool) :
    (verifySig sig = true →
      onMessage verifySig ver dc (.checkFingerprint sig need) =
        ({ dc with hubVerified := true },
         [.fingerprintResponse dc.ds.finger (if need then some dc.ds.hostname else none)])) ∧
    (verifySig sig = false →
      onMessage verifySig ver dc (.checkFingerprint sig need) = (dc, [])) := by
  constructor <;> intro h <;> simp [onMessage, h]

/-- Witness for C2: both oracle outcomes at a concrete unverified client. -/
theorem checkFingerprint_auth_witness :
    onMessage (fun _ => true) "v" wUnverified (.checkFingerprint [] true) =
      ({ wUnverified with hubVerified := true },
       [.fingerprintResponse wUnverified.ds.finger (some wUnverified.ds.hostname)]) ∧
    onMessage (fun _ => false) "v" wUnverified (.checkFingerprint [] true) = (wUnverified, []) :=
  ⟨by simpa using (checkFingerprint_auth (fun _ => true) "v" wUnverified [] true).1 rfl,
   (checkFingerprint_auth (fun _ => false) "v" wUnverified [] true).2 rfl⟩

/-! ## Claim C3 — empty-snapshot suppression on GetData -/

/-- C3 counterexample: a verified, connected session whose humidity map is
non-empty (so the snapshot is not empty in the specification's sense) still
writes no frame on `GetData`, because `send` gates only on the temperatures
map. -/
theorem getData_drops_nonempty_humidity :
    humidityOnlyClient.hubVerified = true ∧
    humidityOnlyClient.ds.lastHumidity ≠ [] ∧
    (onMessage (fun _ => true) "v" humidityOnlyClient InMsg.getData).2 = [] := by
  decide

/-- C3 (amended): on `GetData` over a verified, connected session, no frame is
written iff the temperatures map of the snapshot is empty; whenever the
temperatures map has at least one entry the serialized `CombinedData`
snapshot is written as one message.  Entries in the other six category maps
alone do not trigger a send. -/
theorem getData_sends_iff_temps_nonempty (verifySig : List Nat → Bool) (ver : String)
    (dc : DeviceClient) (hc : dc.connected = true) (hv : dc.hubVerified = true) :
    (onMessage verifySig ver dc InMsg.getData).2 =
      (if dc.ds.lastTemps = [] then [] else
        [OutFrame.combinedData (buildCombinedData dc.ds ver)]) := by
  simp [onMessage, sendData, hc, hv, buildCombinedData_temps, List.length_eq_zero]

/-- Witness for the amended C3 at a concrete client with temperatures. -/
theorem getData_sends_iff_temps_nonempty_witness :
    (onMessage (fun _ => true) "v" wClient InMsg.getData).2 =
      (if wClient.ds.lastTemps = [] then [] else
        [OutFrame.combinedData (buildCombinedData wClient.ds "v")]) :=
  getData_sends_iff_temps_nonempty (fun _ => true) "v" wClient rfl rfl

end BeszelSnmp
